import Mathlib

/-!
Verification of the nomacs image-viewer core (`src/ImageLounge/src/DkImage.h`):
a shallow embedding of the data model and operations of `DkImage`,
`DkMetaData`, `DkThumbNail`, `DkThumbsLoader` and `DkImageLoader`,
followed by theorems settling the specified properties.

Qt types are modelled structurally: a `QImage` is a pixel grid whose
null/empty test mirrors `QImage::isNull` (a default-constructed image has
zero width and height); a `QFileInfo` is its path; `QSize` is a pair of
signed integers. Floating-point resize factors are modelled as exact
rationals; the C++ float-to-int conversion truncates toward zero, modelled
by `ratTrunc`. Method bodies that live in the (absent) implementation file
are modelled from the specification and are marked as such in their doc
comments; everything else is translated directly from the header.
-/

namespace Nmc

/-- `QFileInfo`, modelled as the file path it designates. -/
structure QFileInfo where
  path : String
deriving DecidableEq, Repr

/-- `QSize`: a pair of signed integer dimensions. -/
structure QSize where
  w : Int
  h : Int
deriving DecidableEq, Repr

/-- `QImage`: a decoded image, modelled as its dimensions plus abstract
pixel payload. -/
structure QImage where
  width : Nat
  height : Nat
  pixels : List Nat
deriving DecidableEq, Repr

/-- The default-constructed `QImage()`: the null image. -/
def QImage.null : QImage := ⟨0, 0, []⟩

/-- `QImage::isNull`: a default-constructed (or zero-sized) image is null. -/
def QImage.isNull (img : QImage) : Bool := img.width == 0 || img.height == 0

/-- `QImage::size`. -/
def QImage.size (img : QImage) : QSize := ⟨(img.width : Int), (img.height : Int)⟩

/-- C++ float-to-int conversion truncates toward zero; `Int.tdiv` is
truncated division, and a rational's denominator is positive. -/
def ratTrunc (q : ℚ) : Int := q.num.tdiv (q.den : Int)

/-- The interpolation enum of `DkImage`
(`ipl_nearest, ipl_area, ipl_linear, ipl_cubic, ipl_lanczos`). -/
inductive Interp where
  | ipl_nearest
  | ipl_area
  | ipl_linear
  | ipl_cubic
  | ipl_lanczos
deriving DecidableEq, Repr

/-- `Qt::TransformationMode`. -/
inductive TransformationMode where
  | fast
  | smooth
deriving DecidableEq, Repr

/-- The target size computed by `DkImage::resizeImage` (header lines
209-210): when `factor != 1.0f` the new size is the image size scaled by
the factor, with C++ truncation to int; otherwise it is `newSize`. -/
def computedTargetSize (img : QImage) (newSize : QSize) (factor : ℚ) : QSize :=
  if factor ≠ 1 then
    ⟨ratTrunc ((img.width : ℚ) * factor), ratTrunc ((img.height : ℚ) * factor)⟩
  else newSize

/-- `DkImage::resizeImage` (header lines 201-258, non-OpenCV build):
if the image already has the requested size and the factor is `1.0f`,
return the image unchanged; recompute the target size from the factor;
if a target dimension is below 1, return the null `QImage()`; otherwise
delegate to Qt scaling. The external `img.scaled` routine is a parameter,
as its numeric internals are outside this core. -/
def DkImage.resizeImage (scaled : QImage → QSize → TransformationMode → QImage)
    (img : QImage) (newSize : QSize) (factor : ℚ) (interpolation : Interp) : QImage :=
  if img.size = newSize ∧ factor = 1 then img
  else
    let nSize := computedTargetSize img newSize factor
    if nSize.w < 1 ∨ nSize.h < 1 then QImage.null
    else
      let iplQt := match interpolation with
        | .ipl_nearest => TransformationMode.fast
        | .ipl_area => TransformationMode.fast
        | .ipl_linear => TransformationMode.smooth
        | .ipl_cubic => TransformationMode.smooth
        | .ipl_lanczos => TransformationMode.smooth
      scaled img nSize iplQt

/-- `DkMetaData`: the single-slot metadata cache. `mdata` is the
parsed flag; the `Exiv2` handle itself carries no state we track beyond
whether it has been read for `file`. -/
structure DkMetaData where
  file : QFileInfo
  mdata : Bool
deriving DecidableEq, Repr

/-- `DkMetaData::DkMetaData(QFileInfo)` (header lines 266-269):
stores the file and clears the parsed flag. -/
def DkMetaData.init (file : QFileInfo) : DkMetaData := ⟨file, false⟩

/-- `DkMetaData::setFileName` (header lines 273-276): stores the file and
unconditionally clears the parsed flag, even when the file is unchanged. -/
def DkMetaData.setFileName (_m : DkMetaData) (file : QFileInfo) : DkMetaData :=
  ⟨file, false⟩

/-- `DkMetaData::operator=` (header lines 279-288) for the non-self
assignment case: copies the file and unconditionally clears the parsed
flag (the guard in the source is pointer identity, not file equality). -/
def DkMetaData.assign (_m other : DkMetaData) : DkMetaData :=
  ⟨other.file, false⟩

/-- Modelled from the spec: `DkMetaData::readMetaData` is declared in the
header (line 318) but its body is in the absent implementation file. Per
the spec's MetadataCache contract, a getter access parses the backing
file lazily: if the record is already parsed (`mdata`) it is reused,
otherwise the file is parsed and the flag set. Returns the new state and
whether a parse occurred. -/
def DkMetaData.readMetaData (m : DkMetaData) : DkMetaData × Bool :=
  if m.mdata then (m, false) else (⟨m.file, true⟩, true)

/-- A load request for a file, as the spec's `load(FileRef)`: associate
the cache with the file via `setFileName`, then the first getter access
triggers the lazy `readMetaData`. Returns the new state and whether the
backing file was parsed. -/
def DkMetaData.loadRequest (m : DkMetaData) (f : QFileInfo) : DkMetaData × Bool :=
  (m.setFileName f).readMetaData

/-- `DkThumbNail`: a thumbnail record (header lines 330-417). `s` is the
maximal side length, `imgExists` the file-exists flag. -/
structure DkThumbNail where
  img : QImage
  file : QFileInfo
  s : Nat
  imgExists : Bool
deriving DecidableEq, Repr

/-- Status code `exists_not = -1` of the `DkThumbNail` enum. -/
def DkThumbNail.exists_not : Int := -1

/-- Status code `not_loaded = 0` of the `DkThumbNail` enum. -/
def DkThumbNail.not_loaded : Int := 0

/-- Status code `loaded = 1` of the `DkThumbNail` enum. -/
def DkThumbNail.loaded : Int := 1

/-- `DkThumbNail::DkThumbNail` (header lines 344-349): stores image and
file, initializes the exists flag to `true`, and sets the size to the
maximum of the image's width and height. -/
def DkThumbNail.construct (file : QFileInfo) (img : QImage) : DkThumbNail :=
  { img := img, file := file, imgExists := true, s := max img.width img.height }

/-- `DkThumbNail::hasImage` (header lines 385-393): `loaded` when the
image is non-null, `not_loaded` when it is null but the file exists,
`exists_not` otherwise. -/
def DkThumbNail.hasImage (t : DkThumbNail) : Int :=
  if t.img.isNull = false then DkThumbNail.loaded
  else if t.img.isNull = true ∧ t.imgExists = true then DkThumbNail.not_loaded
  else DkThumbNail.exists_not

/-- `DkThumbNail::setImage`. -/
def DkThumbNail.setImage (t : DkThumbNail) (img : QImage) : DkThumbNail :=
  { t with img := img }

/-- `DkThumbNail::getImage`. -/
def DkThumbNail.getImage (t : DkThumbNail) : QImage := t.img

/-- `DkThumbNail::size` (header lines 407-409): the maximal side. -/
def DkThumbNail.size (t : DkThumbNail) : Nat := t.s

/-- `DkThumbNail::setImgExists`. -/
def DkThumbNail.setImgExists (t : DkThumbNail) (exists_ : Bool) : DkThumbNail :=
  { t with imgExists := exists_ }

/-- The status a thumbnail record can be observed in, in the spec's
vocabulary: `notRequested` / `loading` / `loaded` / `missing`.
(The header enum of `DkThumbNail` carries the first, third and fourth as
`not_loaded`, `loaded`, `exists_not`; `loading` is the transient state
the spec forbids at stop time.) -/
inductive ThumbStatus where
  | notRequested
  | loading
  | loaded
  | missing
deriving DecidableEq, Repr

/-- Modelled from the spec: one step of `DkThumbsLoader::loadThumbs`
(declared header line 459; body in the absent implementation file).
A record not yet `loaded` is decoded — embedded thumbnail or full decode
and downscale, abstracted by the `decodeOk` oracle — and set to the
terminal `loaded` on success or `missing` on failure; a record already
`loaded` is skipped. Processing a record runs to completion before the
stop flag is consulted again, so the transient `loading` state never
survives a step. -/
def processRecord (decodeOk : Nat → Bool) (recs : List ThumbStatus) (i : Nat) :
    List ThumbStatus :=
  if recs[i]? = some ThumbStatus.loaded then recs
  else recs.set i (if decodeOk i then ThumbStatus.loaded else ThumbStatus.missing)

/-- Modelled from the spec: the iteration of `DkThumbsLoader::run` over
the window, checking the cooperative stop request (`stopReq`) between
records only. The fuel argument is the number of records left in the
window. -/
def workerLoop (decodeOk stopReq : Nat → Bool) :
    Nat → Nat → List ThumbStatus → List ThumbStatus
  | _, 0, recs => recs
  | i, fuel + 1, recs =>
    if stopReq i then recs
    else workerLoop decodeOk stopReq (i + 1) fuel (processRecord decodeOk recs i)

/-- Modelled from the spec: a `DkThumbsLoader` pass over the window
`[startIdx, endIdx)`. -/
def runWorker (decodeOk stopReq : Nat → Bool) (startIdx endIdx : Nat)
    (recs : List ThumbStatus) : List ThumbStatus :=
  workerLoop decodeOk stopReq startIdx (endIdx - startIdx) recs

/-- The spec's navigator state machine `{no-file, file-loading,
file-ready, file-error}`. -/
inductive NavState where
  | noFile
  | fileLoading
  | fileReady
  | fileError
deriving DecidableEq, Repr

/-- The notifications `DkImageLoader` emits (header lines 548-555),
restricted to those the claims mention. -/
inductive Signal where
  | updateImage
  | updateFile (f : QFileInfo)
  | fileNotLoaded (f : QFileInfo)
deriving DecidableEq, Repr

/-- `DkImageLoader`: the folder navigator. `img` is the held image buffer
(header line 585), `file` the current file, `files` the filtered file
list, `idx` the current index within it, `navState` the spec's state
machine phase. -/
structure DkImageLoader where
  file : QFileInfo
  files : List QFileInfo
  idx : Nat
  img : QImage
  navState : NavState
deriving DecidableEq, Repr

/-- `DkImageLoader::hasImage` (header lines 524-528): true iff the held
image is non-null. The mutex guards only this read and is identity in the
sequential embedding. -/
def DkImageLoader.hasImage (l : DkImageLoader) : Bool := !l.img.isNull

/-- `DkImageLoader::getImage` (header lines 534-538): the held image. -/
def DkImageLoader.getImage (l : DkImageLoader) : QImage := l.img

/-- Modelled from the spec: `DkImageLoader::loadFile` (declared header
line 563; body in the absent implementation file). The decode pipeline
(direct decode with RAW fallback) is abstracted by the `decode` oracle.
On success: the buffer is replaced, the state becomes file-ready, and
"image updated" plus the current-file notification are emitted. On
failure: the state becomes file-error, the buffer is NOT overwritten, and
a file-not-loaded notification naming the file is emitted. -/
def DkImageLoader.loadFile (decode : QFileInfo → Option QImage)
    (l : DkImageLoader) (f : QFileInfo) : DkImageLoader × List Signal :=
  match decode f with
  | some i =>
    ({ l with img := i, file := f, navState := NavState.fileReady },
     [Signal.updateImage, Signal.updateFile f])
  | none =>
    ({ l with navState := NavState.fileError }, [Signal.fileNotLoaded f])

/-- Modelled from the spec: `DkImageLoader::changeFile` (declared header
line 558; body in the absent implementation file) advances the current
index by a signed offset, clamped to the list bounds (no wraparound), and
delegates to `loadFile` on the file at the new index — re-emitting the
current file when clamping leaves the index unchanged. -/
def DkImageLoader.changeFile (decode : QFileInfo → Option QImage)
    (l : DkImageLoader) (skipIdx : Int) : DkImageLoader × List Signal :=
  if l.files = [] then (l, [])
  else
    let last : Int := (l.files.length : Int) - 1
    let newIdx : Nat := (min (max ((l.idx : Int) + skipIdx) 0) last).toNat
    DkImageLoader.loadFile decode { l with idx := newIdx }
      (l.files.getD newIdx l.file)

/-- Modelled from the spec: `DkImageLoader::nextFile` (header line 500)
steps forward by one. -/
def DkImageLoader.nextFile (decode : QFileInfo → Option QImage)
    (l : DkImageLoader) : DkImageLoader × List Signal :=
  DkImageLoader.changeFile decode l 1

/-- Modelled from the spec: `DkImageLoader::previousFile` (header line
501) steps backward by one. -/
def DkImageLoader.previousFile (decode : QFileInfo → Option QImage)
    (l : DkImageLoader) : DkImageLoader × List Signal :=
  DkImageLoader.changeFile decode l (-1)

/-- A concrete loader used by the witnesses: one file in the list, a
non-null held image. -/
def sampleLoader : DkImageLoader :=
  { file := ⟨"a.jpg"⟩, files := [⟨"a.jpg"⟩], idx := 0,
    img := ⟨1, 1, [7]⟩, navState := NavState.fileReady }

/-! ## Theorems -/

/-- Helper: a processed record list only ever holds what was already
there, or the terminal statuses `loaded` and `missing`. -/
theorem mem_processRecord {x : ThumbStatus} {decodeOk : Nat → Bool}
    {recs : List ThumbStatus} {i : Nat}
    (hx : x ∈ processRecord decodeOk recs i) :
    x ∈ recs ∨ x = ThumbStatus.loaded ∨ x = ThumbStatus.missing := by
  unfold processRecord at hx
  split at hx
  · exact Or.inl hx
  · rcases List.mem_or_eq_of_mem_set hx with h | h
    · exact Or.inl h
    · subst h
      split <;> simp

/-- Helper: the worker loop preserves the invariant that every record is
untouched or terminal. -/
theorem workerLoop_status (decodeOk stopReq : Nat → Bool) (fuel : Nat) :
    ∀ (i : Nat) (recs : List ThumbStatus),
      (∀ x ∈ recs, x = ThumbStatus.notRequested ∨ x = ThumbStatus.loaded ∨
        x = ThumbStatus.missing) →
      ∀ x ∈ workerLoop decodeOk stopReq i fuel recs,
        x = ThumbStatus.notRequested ∨ x = ThumbStatus.loaded ∨
          x = ThumbStatus.missing := by
  induction fuel with
  | zero => intro i recs h; simpa [workerLoop] using h
  | succ fuel ih =>
    intro i recs h
    unfold workerLoop
    split
    · exact h
    · apply ih (i + 1)
      intro x hx
      rcases mem_processRecord hx with h1 | h1 | h1
      · exact h x h1
      · exact Or.inr (Or.inl h1)
      · exact Or.inr (Or.inr h1)

/-- C3: for every run of the thumbnail worker — any decode outcomes, any
cooperative stop request observed between records — every record of a
store whose records start untouched is, when the run returns, either
untouched (`notRequested`) or terminal (`loaded`/`missing`); none is left
in the transient `loading` state. -/
theorem thumbsLoader_stop_no_loading (decodeOk stopReq : Nat → Bool)
    (startIdx endIdx : Nat) (recs : List ThumbStatus)
    (hinit : ∀ x ∈ recs, x = ThumbStatus.notRequested) :
    ∀ x ∈ runWorker decodeOk stopReq startIdx endIdx recs,
      x = ThumbStatus.notRequested ∨ x = ThumbStatus.loaded ∨
        x = ThumbStatus.missing := by
  apply workerLoop_status
  intro x hx
  exact Or.inl (hinit x hx)

/-- Witness for C3: a two-record store, decode succeeding, stop requested
from the second record on. -/
theorem thumbsLoader_stop_no_loading_witness :
    (∀ x ∈ [ThumbStatus.notRequested, ThumbStatus.notRequested],
      x = ThumbStatus.notRequested) ∧
    (∀ x ∈ runWorker (fun _ => true) (fun i => decide (1 ≤ i)) 0 2
        [ThumbStatus.notRequested, ThumbStatus.notRequested],
      x = ThumbStatus.notRequested ∨ x = ThumbStatus.loaded ∨
        x = ThumbStatus.missing) :=
  ⟨by decide,
   thumbsLoader_stop_no_loading (fun _ => true) (fun i => decide (1 ≤ i)) 0 2
     [ThumbStatus.notRequested, ThumbStatus.notRequested] (by decide)⟩

/-- C2: every `DkThumbNail` reports exactly one status — `hasImage` is a
function into the three codes `not_loaded` (the spec's not-requested),
`loaded` and `exists_not` (the spec's missing), a subset of the spec's
status set (the transient `loading` is never reported) — and it reports
the terminal `loaded` exactly when the held thumbnail image is
non-null. -/
theorem thumbNail_status_partition (t : DkThumbNail) :
    (t.hasImage = DkThumbNail.not_loaded ∨ t.hasImage = DkThumbNail.loaded ∨
      t.hasImage = DkThumbNail.exists_not) ∧
    (t.hasImage = DkThumbNail.loaded ↔ t.img.isNull = false) := by
  unfold DkThumbNail.hasImage
  rcases h : t.img.isNull <;> rcases h2 : t.imgExists <;>
    simp [h, h2, DkThumbNail.loaded, DkThumbNail.not_loaded, DkThumbNail.exists_not]

/-- C4: the image loader's emptiness query `hasImage` returns `true`
exactly when the held image is non-null. -/
theorem imageLoader_hasImage_iff_nonNull (l : DkImageLoader) :
    l.hasImage = true ↔ l.img.isNull = false := by
  simp [DkImageLoader.hasImage]

/-- C9: a thumbnail record freshly constructed with the default null
image reports status `not_loaded` (never `exists_not`, because the
file-exists flag is initialized to `true`) and its reported maximal side
length is `0`. -/
theorem thumbNail_default_construct_not_loaded (file : QFileInfo) :
    (DkThumbNail.construct file QImage.null).hasImage = DkThumbNail.not_loaded ∧
    (DkThumbNail.construct file QImage.null).size = 0 :=
  ⟨rfl, rfl⟩

/-- Counterexample to C1 as stated: after a load request has associated
the cache with `a.jpg` and parsed it (`mdata = true`), a second load
request for the very same file parses again — `setFileName` clears the
parsed flag unconditionally (header lines 273-276), it does not compare
the incoming file with the cache's current one. So a parse occurs even
though the cache's associated FileRef does not differ from the request,
and more than one parse happens for one distinct FileRef. -/
theorem metaData_same_file_reparse_counterexample :
    (((DkMetaData.init ⟨"a.jpg"⟩).loadRequest ⟨"a.jpg"⟩).1.file = ⟨"a.jpg"⟩ ∧
      ((DkMetaData.init ⟨"a.jpg"⟩).loadRequest ⟨"a.jpg"⟩).1.mdata = true) ∧
    ((((DkMetaData.init ⟨"a.jpg"⟩).loadRequest ⟨"a.jpg"⟩).1.loadRequest
        ⟨"a.jpg"⟩).2 = true) :=
  ⟨⟨rfl, rfl⟩, rfl⟩

/-- C1 (amended): every load request parses the backing file, whether or
not the cache's associated FileRef differs from the request, because
`setFileName` unconditionally clears the parsed flag; the cached record
is reused only between load requests — after a load request the cache is
associated with the requested file and further getter accesses
(`readMetaData`) do not parse again until the next explicit
`setFileName`/assignment. -/
theorem metaData_loadRequest_always_parses (m : DkMetaData) (f : QFileInfo) :
    (m.loadRequest f).2 = true ∧ (m.loadRequest f).1.file = f ∧
    ((m.loadRequest f).1.readMetaData).2 = false :=
  ⟨rfl, rfl, rfl⟩

/-- C5: when the decode of a file fails, `loadFile` transitions the
navigator to the file-error state, leaves the held image buffer
unchanged, and emits a file-not-loaded notification naming the failed
file. -/
theorem loadFile_failure_preserves_buffer (decode : QFileInfo → Option QImage)
    (l : DkImageLoader) (f : QFileInfo) (hfail : decode f = none) :
    (DkImageLoader.loadFile decode l f).1.navState = NavState.fileError ∧
    (DkImageLoader.loadFile decode l f).1.img = l.img ∧
    Signal.fileNotLoaded f ∈ (DkImageLoader.loadFile decode l f).2 := by
  simp [DkImageLoader.loadFile, hfail]

/-- Witness for C5: a decoder that always fails, on the sample loader. -/
theorem loadFile_failure_preserves_buffer_witness :
    ((fun _ : QFileInfo => (none : Option QImage)) ⟨"b.jpg"⟩ = none) ∧
    ((DkImageLoader.loadFile (fun _ => none) sampleLoader ⟨"b.jpg"⟩).1.navState =
        NavState.fileError ∧
      (DkImageLoader.loadFile (fun _ => none) sampleLoader ⟨"b.jpg"⟩).1.img =
        sampleLoader.img ∧
      Signal.fileNotLoaded ⟨"b.jpg"⟩ ∈
        (DkImageLoader.loadFile (fun _ => none) sampleLoader ⟨"b.jpg"⟩).2) :=
  ⟨rfl, loadFile_failure_preserves_buffer (fun _ => none) sampleLoader ⟨"b.jpg"⟩ rfl⟩

/-- C7: loading the same file twice in succession with the same decode
environment (no external change to the file) leaves the image buffer
bit-identical to its content after the first load. -/
theorem loadFile_idempotent (decode : QFileInfo → Option QImage)
    (l : DkImageLoader) (f : QFileInfo) :
    (DkImageLoader.loadFile decode
        (DkImageLoader.loadFile decode l f).1 f).1.img =
      (DkImageLoader.loadFile decode l f).1.img := by
  cases hdec : decode f <;> simp [DkImageLoader.loadFile, hdec]

/-- Helper: a `loadFile` never changes the current index and always
emits a notification naming the loaded file — the current-file signal on
success or the file-not-loaded signal on failure. -/
theorem loadFile_keeps_idx_and_names_file (decode : QFileInfo → Option QImage)
    (l : DkImageLoader) (f : QFileInfo) :
    (DkImageLoader.loadFile decode l f).1.idx = l.idx ∧
    (Signal.updateFile f ∈ (DkImageLoader.loadFile decode l f).2 ∨
      Signal.fileNotLoaded f ∈ (DkImageLoader.loadFile decode l f).2) := by
  cases hdec : decode f <;> simp [DkImageLoader.loadFile, hdec]

/-- C6: with a nonempty file list, `nextFile` at the last index leaves
the current index unchanged and still emits a notification naming the
current file (the successful-load current-file signal or the
file-not-loaded signal, depending on the decode); symmetrically for
`previousFile` at index 0. -/
theorem navigation_noop_at_bounds (decode : QFileInfo → Option QImage)
    (l : DkImageLoader) (hne : l.files ≠ []) :
    (l.idx = l.files.length - 1 →
      (DkImageLoader.nextFile decode l).1.idx = l.idx ∧
      (Signal.updateFile (l.files.getD l.idx l.file) ∈
          (DkImageLoader.nextFile decode l).2 ∨
        Signal.fileNotLoaded (l.files.getD l.idx l.file) ∈
          (DkImageLoader.nextFile decode l).2)) ∧
    (l.idx = 0 →
      (DkImageLoader.previousFile decode l).1.idx = 0 ∧
      (Signal.updateFile (l.files.getD 0 l.file) ∈
          (DkImageLoader.previousFile decode l).2 ∨
        Signal.fileNotLoaded (l.files.getD 0 l.file) ∈
          (DkImageLoader.previousFile decode l).2)) := by
  have hlen : 1 ≤ l.files.length := List.length_pos.mpr hne
  constructor
  · intro hidx
    have hnew : (min (max ((l.idx : Int) + 1) 0) ((l.files.length : Int) - 1)).toNat
        = l.idx := by omega
    simp only [DkImageLoader.nextFile, DkImageLoader.changeFile, if_neg hne, hnew]
    exact loadFile_keeps_idx_and_names_file decode _ _
  · intro hidx
    have hnew : (min (max ((l.idx : Int) + (-1)) 0) ((l.files.length : Int) - 1)).toNat
        = 0 := by omega
    simp only [DkImageLoader.previousFile, DkImageLoader.changeFile, if_neg hne, hnew]
    exact loadFile_keeps_idx_and_names_file decode _ _

/-- Witness for C6: the sample loader has one file, so index 0 is both
the first and the last index; both bound hypotheses are discharged. -/
theorem navigation_noop_at_bounds_witness :
    sampleLoader.files ≠ [] ∧
    sampleLoader.idx = sampleLoader.files.length - 1 ∧ sampleLoader.idx = 0 ∧
    (DkImageLoader.nextFile (fun _ => none) sampleLoader).1.idx = sampleLoader.idx ∧
    (DkImageLoader.previousFile (fun _ => none) sampleLoader).1.idx = 0 :=
  ⟨by simp [sampleLoader], rfl, rfl,
   ((navigation_noop_at_bounds (fun _ => none) sampleLoader
      (by simp [sampleLoader])).1 rfl).1,
   ((navigation_noop_at_bounds (fun _ => none) sampleLoader
      (by simp [sampleLoader])).2 rfl).1⟩

/-- C10: `resizeImage` with the image's own size and factor 1 is the
identity; and whenever the computed target width or height is below 1,
the result is a null (empty) image — via the explicit below-1 guard, or,
in the early-return case (only reachable when the image's own size
already has the sub-1 dimension), because the returned image is itself
null. -/
theorem resizeImage_identity_and_small_target
    (scaled : QImage → QSize → TransformationMode → QImage)
    (img : QImage) (newSize : QSize) (factor : ℚ) (interp : Interp) :
    DkImage.resizeImage scaled img img.size 1 interp = img ∧
    ((computedTargetSize img newSize factor).w < 1 ∨
        (computedTargetSize img newSize factor).h < 1 →
      (DkImage.resizeImage scaled img newSize factor interp).isNull = true) := by
  constructor
  · simp [DkImage.resizeImage]
  · intro hsmall
    unfold DkImage.resizeImage
    by_cases hc : img.size = newSize ∧ factor = 1
    · rw [if_pos hc]
      obtain ⟨hsz, hf⟩ := hc
      subst hsz
      simp only [computedTargetSize, hf, ne_eq, not_true_eq_false, if_false,
        QImage.size] at hsmall
      have : img.width = 0 ∨ img.height = 0 := by omega
      simp only [QImage.isNull, Bool.or_eq_true, beq_iff_eq]
      omega
    · rw [if_neg hc]
      simp only []
      rw [if_pos hsmall]
      rfl

/-- Witness for C10: the null image with requested size 0×5 and factor 1
has computed target width 0 < 1, and the resize result is null. -/
theorem resizeImage_identity_and_small_target_witness :
    ((computedTargetSize QImage.null ⟨0, 5⟩ 1).w < 1 ∨
      (computedTargetSize QImage.null ⟨0, 5⟩ 1).h < 1) ∧
    (DkImage.resizeImage (fun i _ _ => i) QImage.null ⟨0, 5⟩ 1
      Interp.ipl_cubic).isNull = true :=
  ⟨by decide,
   (resizeImage_identity_and_small_target (fun i _ _ => i) QImage.null ⟨0, 5⟩ 1
     Interp.ipl_cubic).2 (by decide)⟩

end Nmc
